import Mathlib

/-!
Verification of the Ticketmaster MCP server (`src/events.py`) against its
natural-language specification.

The Python code is shallowly embedded: JSON values are an inductive type,
Python dict/list/string operations that can raise (`in`, `[]`, `.get`,
`len`, `+`, `.lower`) are modelled as `Except String`-valued functions whose
error value stands for the Python exception, and every function from the
source (`format_event`, `extract_events`, `make_ticketmaster_request`,
the tool entry points' result computation) is translated line by line.
-/

/-- A JSON value as produced by `response.json()` in Python.  Numbers are
modelled as integers, which covers every numeric literal appearing in the
spec's examples. -/
inductive Json where
  | null : Json
  | bool (b : Bool) : Json
  | num (n : Int) : Json
  | str (s : String) : Json
  | arr (xs : List Json) : Json
  | obj (kvs : List (String × Json)) : Json

mutual

/-- Structural equality of JSON values, modelling Python `==` on the
fragment we use (str/num/bool/None comparisons and element lookup). -/
def jsonBeq : Json → Json → Bool
  | .null, .null => true
  | .bool a, .bool b => a == b
  | .num a, .num b => a == b
  | .str a, .str b => a == b
  | .arr xs, .arr ys => jsonBeqList xs ys
  | .obj xs, .obj ys => jsonBeqPairs xs ys
  | _, _ => false

/-- Elementwise equality of JSON arrays. -/
def jsonBeqList : List Json → List Json → Bool
  | [], [] => true
  | x :: xs, y :: ys => jsonBeq x y && jsonBeqList xs ys
  | _, _ => false

/-- Pairwise equality of JSON objects (as ordered association lists). -/
def jsonBeqPairs : List (String × Json) → List (String × Json) → Bool
  | [], [] => true
  | (k, v) :: xs, (l, w) :: ys => k == l && jsonBeq v w && jsonBeqPairs xs ys
  | _, _ => false

end

/-- Python truthiness: `None`, `False`, `0`, `""`, `[]`, `{}` are falsy. -/
def pyTruthy : Json → Bool
  | .null => false
  | .bool b => b
  | .num n => n != 0
  | .str s => s != ""
  | .arr xs => !xs.isEmpty
  | .obj kvs => !kvs.isEmpty

/-- First-occurrence lookup in an ordered association list (a Python dict). -/
def lookupKey : List (String × Json) → String → Option Json
  | [], _ => none
  | (k', v) :: rest, k => if k' = k then some v else lookupKey rest k

/-- Does `needle` occur at the head of `hay`? -/
def chrSeqLeads : List Char → List Char → Bool
  | [], _ => true
  | _ :: _, [] => false
  | c :: cs, d :: ds => c == d && chrSeqLeads cs ds

/-- Does `needle` occur anywhere inside `hay`? -/
def chrSeqWithin (needle : List Char) : List Char → Bool
  | [] => needle.isEmpty
  | d :: ds => chrSeqLeads needle (d :: ds) || chrSeqWithin needle ds

/-- Substring test, modelling Python `needle in haystack` on strings. -/
def strContains (hay needle : String) : Bool :=
  chrSeqWithin needle.toList hay.toList

/-- ASCII lowering of one character, modelling Python `str.lower` on the
ASCII range. -/
def charLower (c : Char) : Char :=
  if 65 ≤ c.toNat ∧ c.toNat ≤ 90 then Char.ofNat (c.toNat + 32) else c

/-- Python `s.lower()` over the characters of `s`. -/
def strLower (s : String) : String :=
  String.mk (s.toList.map charLower)

/-- Python `s.startswith(pre)`. -/
def strStartsWith (s pre : String) : Bool :=
  chrSeqLeads pre.toList s.toList

/-- Python `key in j`: key lookup on dicts, membership on lists, substring
on strings; `TypeError` on the remaining types. -/
def pyContains (j : Json) (k : String) : Except String Bool :=
  match j with
  | .obj kvs => .ok (lookupKey kvs k).isSome
  | .arr xs => .ok (xs.any (fun x => jsonBeq x (.str k)))
  | .str s => .ok (strContains s k)
  | _ => .error "TypeError"

/-- Python `j[k]` for a string key: dict lookup (`KeyError` when absent),
`TypeError` on every non-dict type. -/
def pyIndex (j : Json) (k : String) : Except String Json :=
  match j with
  | .obj kvs =>
      match lookupKey kvs k with
      | some v => .ok v
      | none => .error "KeyError"
  | _ => .error "TypeError"

/-- Python `j[i]` for a nonnegative integer index: list/str indexing with
`IndexError` out of range, `KeyError` for a dict without integer keys,
`TypeError` otherwise. -/
def pyIndexNat (j : Json) (i : Nat) : Except String Json :=
  match j with
  | .arr xs =>
      match xs[i]? with
      | some v => .ok v
      | none => .error "IndexError"
  | .str s =>
      match s.toList[i]? with
      | some c => .ok (.str (String.singleton c))
      | none => .error "IndexError"
  | .obj _ => .error "KeyError"
  | _ => .error "TypeError"

/-- Python `j.get(k, default)`: defined only on dicts; `AttributeError`
on every other type. -/
def pyGet (j : Json) (k : String) (dflt : Json) : Except String Json :=
  match j with
  | .obj kvs => .ok ((lookupKey kvs k).getD dflt)
  | _ => .error "AttributeError"

/-- Python `len(j)`: sized containers only, `TypeError` otherwise. -/
def pyLen (j : Json) : Except String Nat :=
  match j with
  | .arr xs => .ok xs.length
  | .str s => .ok s.length
  | .obj kvs => .ok kvs.length
  | _ => .error "TypeError"

mutual

/-- Python `repr(j)`: like `str` but quoting strings.  Escaping of special
characters inside strings is elided. -/
def pyRepr : Json → String
  | .null => "None"
  | .bool b => if b then "True" else "False"
  | .num n => toString n
  | .str s => "'" ++ s ++ "'"
  | .arr xs => "[" ++ String.intercalate ", " (pyReprList xs) ++ "]"
  | .obj kvs => "\x7b" ++ String.intercalate ", " (pyReprPairs kvs) ++ "\x7d"

/-- Python `repr` of each element of a list. -/
def pyReprList : List Json → List String
  | [] => []
  | x :: xs => pyRepr x :: pyReprList xs

/-- Python `repr` of each key-value pair of a dict. -/
def pyReprPairs : List (String × Json) → List String
  | [] => []
  | (k, v) :: xs => ("'" ++ k ++ "': " ++ pyRepr v) :: pyReprPairs xs

end

/-- Python `str(j)` / f-string conversion: the identity on strings, `repr`
otherwise (which is what `str` prints for every other JSON value). -/
def pyStr : Json → String
  | .str s => s
  | j => pyRepr j

/-- Python `a + b` on JSON values: string and list concatenation, integer
addition; `TypeError` on mixed or unsupported operands. -/
def pyAdd (a b : Json) : Except String Json :=
  match a, b with
  | .str x, .str y => .ok (.str (x ++ y))
  | .num x, .num y => .ok (.num (x + y))
  | .arr x, .arr y => .ok (.arr (x ++ y))
  | _, _ => .error "TypeError"

/-! ## The source functions of `src/events.py` -/

/-- Lines 57-65: the `date_info` block of `format_event`. -/
def date_info (event : Json) : Except String String := do
  let c1 ← pyContains event "dates"
  if c1 then do
    let dates ← pyIndex event "dates"
    let c2 ← pyContains dates "start"
    if c2 then do
      let start ← pyIndex dates "start"
      let c3 ← pyContains start "localDate"
      if c3 then do
        let d ← pyIndex start "localDate"
        let c4 ← pyContains start "localTime"
        let d ←
          if c4 then do
            let t ← pyIndex start "localTime"
            pyAdd d (.str (" " ++ pyStr t))
          else pure d
        pure ("Date: " ++ pyStr d ++ "\n")
      else pure ""
    else pure ""
  else pure ""

/-- The values of a list that Python `str.join` accepts: all must be
strings, otherwise `TypeError`. -/
def pyStrValues : List Json → Except String (List String)
  | [] => .ok []
  | .str s :: rest => do
      let tail ← pyStrValues rest
      .ok (s :: tail)
  | _ :: _ => .error "TypeError"

/-- Line 77: `", ".join(parts)`, a `TypeError` when a part is not a string. -/
def pyJoinParts (parts : List Json) : Except String String := do
  let strs ← pyStrValues parts
  pure (String.intercalate ", " strs)

/-- Lines 67-78: the `venue_info` block of `format_event`. -/
def venue_info (event : Json) : Except String String := do
  let c1 ← pyContains event "embedded"
  if c1 then do
    let emb ← pyIndex event "embedded"
    let c2 ← pyContains emb "_embedded"
    if c2 then do
      let inner ← pyIndex emb "_embedded"
      let c3 ← pyContains inner "venues"
      if c3 then do
        let venues ← pyIndex inner "venues"
        if pyTruthy venues then do
          let n ← pyLen venues
          if n > 0 then do
            let venue ← pyIndexNat venues 0
            let venueName ← pyGet venue "name" (.str "Unknown Venue")
            let cityObj ← pyGet venue "city" (.obj [])
            let city ← pyGet cityObj "name" (.str "")
            let stateObj ← pyGet venue "state" (.obj [])
            let state ← pyGet stateObj "name" (.str "")
            let countryObj ← pyGet venue "country" (.obj [])
            let country ← pyGet countryObj "name" (.str "")
            let parts := [city, state, country].filter pyTruthy
            let location ← pyJoinParts parts
            pure ("Venue: " ++ pyStr venueName ++ ", " ++ location ++ "\n")
          else pure ""
        else pure ""
      else pure ""
    else pure ""
  else pure ""


/-- Lines 80-91: the `price_info` block of `format_event`. -/
def price_info (event : Json) : Except String String := do
  let c1 ← pyContains event "priceRanges"
  if c1 then do
    let priceRanges ← pyIndex event "priceRanges"
    if pyTruthy priceRanges then do
      let n ← pyLen priceRanges
      if n > 0 then do
        let pr ← pyIndexNat priceRanges 0
        let minPrice ← pyGet pr "min" .null
        let maxPrice ← pyGet pr "max" .null
        let currency ← pyGet pr "currency" (.str "USD")
        if pyTruthy minPrice && pyTruthy maxPrice then
          pure ("Price Range: " ++ pyStr minPrice ++ "-" ++ pyStr maxPrice ++ " " ++ pyStr currency ++ "\n")
        else if pyTruthy minPrice then
          pure ("Starting Price: " ++ pyStr minPrice ++ " " ++ pyStr currency ++ "\n")
        else pure ""
      else pure ""
    else pure ""
  else pure ""

/-- Lines 93-107: the `ticket_info` block of `format_event`. -/
def ticket_info (event : Json) : Except String String := do
  let c1 ← pyContains event "dates"
  if c1 then do
    let dates ← pyIndex event "dates"
    let c2 ← pyContains dates "status"
    if c2 then do
      let status ← pyIndex dates "status"
      let code ← pyGet status "code" (.str "")
      if jsonBeq code (.str "onsale") then pure "Ticket Status: On Sale\n"
      else if jsonBeq code (.str "offsale") then pure "Ticket Status: Off Sale\n"
      else if jsonBeq code (.str "cancelled") then pure "Ticket Status: Cancelled\n"
      else if jsonBeq code (.str "postponed") then pure "Ticket Status: Postponed\n"
      else if jsonBeq code (.str "rescheduled") then pure "Ticket Status: Rescheduled\n"
      else pure ""
    else pure ""
  else pure ""

/-- Lines 109-112: the `url_info` block of `format_event`. -/
def url_info (event : Json) : Except String String := do
  let c1 ← pyContains event "url"
  if c1 then do
    let u ← pyIndex event "url"
    pure ("Tickets: " ++ pyStr u ++ "\n")
  else pure ""

/-- Python `j.lower()`: defined on strings only, `AttributeError`
otherwise. -/
def pyLower (j : Json) : Except String String :=
  match j with
  | .str s => .ok (strLower s)
  | _ => .error "AttributeError"

/-- Lines 120-123 / 125-128 / 130-133: one classification component of the
`genre_info` block; yields the zero-or-one names it appends to `segments`
(`if name and name.lower() != "undefined": segments.append(name)`). -/
def component_names (classification : Json) (key : String) : Except String (List String) := do
  let c ← pyContains classification key
  if c then do
    let comp ← pyIndex classification key
    if pyTruthy comp then do
      let name ← pyGet comp "name" .null
      if pyTruthy name then do
        let low ← pyLower name
        if low ≠ "undefined" then pure [pyStr name] else pure []
      else pure []
    else pure []
  else pure []

/-- Lines 118-133: the `segments` list built by the `genre_info` block from
`classifications[0]`. -/
def classification_segments (classification : Json) : Except String (List String) := do
  let s1 ← component_names classification "segment"
  let s2 ← component_names classification "genre"
  let s3 ← component_names classification "subGenre"
  pure (s1 ++ s2 ++ s3)

/-- Lines 114-136: the `genre_info` block of `format_event`. -/
def genre_info (event : Json) : Except String String := do
  let c1 ← pyContains event "classifications"
  if c1 then do
    let cls ← pyIndex event "classifications"
    if pyTruthy cls then do
      let classification ← pyIndexNat cls 0
      let segments ← classification_segments classification
      if !segments.isEmpty then
        pure ("Genre: " ++ String.intercalate " | " segments ++ "\n")
      else pure ""
    else pure ""
  else pure ""

/-- Lines 53-142: `format_event`.  Sub-blocks are computed in source order
(name, date, venue, price, ticket status, url, genre) and concatenated in
the order of the final f-string (date, venue, genre, price, ticket, url). -/
def format_event (event : Json) : Except String String := do
  let name ← pyGet event "name" (.str "Unknown Event")
  let dateInfo ← date_info event
  let venueInfo ← venue_info event
  let priceInfo ← price_info event
  let ticketInfo ← ticket_info event
  let urlInfo ← url_info event
  let genreInfo ← genre_info event
  pure ("\nEvent: " ++ pyStr name ++ "\n" ++ dateInfo ++ venueInfo ++ genreInfo
        ++ priceInfo ++ ticketInfo ++ urlInfo ++ "\n")

/-- Lines 144-152: `extract_events`.  Returns the value found at
`data["_embedded"]["events"]`, or the empty list when the path is absent. -/
def extract_events (data : Json) : Except String Json := do
  let c1 ← pyContains data "_embedded"
  if c1 then do
    let emb ← pyIndex data "_embedded"
    let c2 ← pyContains emb "events"
    if c2 then pyIndex emb "events"
    else pure (.arr [])
  else pure (.arr [])

/-- The possible outcomes of the single `httpx` GET issued by
`make_ticketmaster_request`: a JSON body, an `HTTPStatusError` with a
status code, a transport-level `RequestError`, or any other exception. -/
inductive HttpOutcome where
  | success (body : Json) : HttpOutcome
  | statusError (code : Nat) : HttpOutcome
  | requestError : HttpOutcome
  | unexpected (msg : String) : HttpOutcome

/-- Lines 36-51: the value returned by `make_ticketmaster_request` for each
outcome of the HTTP request. -/
def make_ticketmaster_request (outcome : HttpOutcome) : Json :=
  match outcome with
  | .success body => body
  | .statusError code =>
      if code = 429 then .obj [("error", .str "Rate limit exceeded. Please try again later.")]
      else if code = 401 then .obj [("error", .str "Unauthorized. Please check your API key.")]
      else .obj [("error", .str ("HTTP error: " ++ toString code))]
  | .requestError => .obj [("error", .str "Failed to connect to Ticketmaster API.")]
  | .unexpected msg => .obj [("error", .str ("An unexpected error occurred: " ++ msg))]

/-- Python `d[k] = v` on a dict represented as an ordered association list:
replaces the value at an existing key in place, appends otherwise. -/
def pySetItem : List (String × Json) → String → Json → List (String × Json)
  | [], k, v => [(k, v)]
  | (k', v') :: rest, k, v =>
      if k' = k then (k, v) :: rest else (k', v') :: pySetItem rest k v

/-- Line 33: the caller's `params` mapping after
`make_ticketmaster_request` executes `params["apikey"] = TICKETMASTER_API_KEY`
(the key is configured at startup and passed here as `apikey`). -/
def requestParamsAfter (apikey : String) (params : List (String × Json)) : List (String × Json) :=
  pySetItem params "apikey" (.str apikey)

/-- Python iteration over a JSON value (`for event in events`): list
elements, string characters, dict keys; `TypeError` otherwise. -/
def pyIterate : Json → Except String (List Json)
  | .arr xs => .ok xs
  | .str s => .ok (s.toList.map (fun c => .str (String.singleton c)))
  | .obj kvs => .ok (kvs.map (fun p => .str p.1))
  | _ => .error "TypeError"

/-- Line 179: `[format_event(event) for event in events]`. -/
def formatEventList : List Json → Except String (List String)
  | [] => .ok []
  | e :: rest => do
      let s ← format_event e
      let tail ← formatEventList rest
      .ok (s :: tail)

/-- Lines 171-181: the result of `search_events_by_artist` computed from
the JSON value the Gateway returned. -/
def search_artist_result (artist : String) (data : Json) : Except String String := do
  let hasError ← pyContains data "error"
  if hasError then do
    let err ← pyIndex data "error"
    pure ("Error: " ++ pyStr err)
  else do
    let events ← extract_events data
    if !pyTruthy events then
      pure ("No upcoming events found for artist: " ++ artist)
    else do
      let evList ← pyIterate events
      let formatted ← formatEventList evList
      pure ("Upcoming events for " ++ artist ++ ":\n\n" ++ String.intercalate "\n" formatted)

/-- Lines 155-181: `search_events_by_artist` as a function of the artist
and the outcome of the Gateway's HTTP request. -/
def search_events_by_artist (artist : String) (outcome : HttpOutcome) : Except String String :=
  search_artist_result artist (make_ticketmaster_request outcome)

/-- Lines 198-199: `{k: v for k, v in params.items() if v is not None}`. -/
def removeNoneParams (params : List (String × Json)) : List (String × Json) :=
  params.filter (fun p => match p.2 with | .null => false | _ => true)

/-- Lines 191-199: the outgoing parameter mapping built by
`search_events_by_venue` before the API key is added. -/
def venue_search_params (venue : String) (size : Int) : List (String × Json) :=
  removeNoneParams
    [("venueId", if strStartsWith venue "KovZ" then .str venue else .null),
     ("keyword", if strStartsWith venue "KovZ" then .null else .str venue),
     ("size", .num size),
     ("sort", .str "date,asc")]

/-! ## Well-formedness of events and payloads

`wfEvent` is a sufficient structural condition (taken from the Event shape
in section 3 of the spec) under which `format_event` runs without raising:
nested containers are objects where the code indexes into them, names used
in `.lower()` or `", ".join` are strings, and list-valued fields are lists. -/

/-- Simp lemmas used to reduce the `Except` do-blocks of the embedding. -/
theorem exBindOk {ε α β : Type} (a : α) (f : α → Except ε β) :
    (Except.ok a >>= f : Except ε β) = f a := rfl

theorem exBindError {ε α β : Type} (e : ε) (f : α → Except ε β) :
    (Except.error e >>= f : Except ε β) = Except.error e := rfl

theorem exPure {ε α : Type} (a : α) : (pure a : Except ε α) = Except.ok a := rfl

attribute [simp] exBindOk exBindError exPure

/-- The `dates` field: an object whose `start` is an object with a string
`localDate` (if any), and whose `status` is an object (if any). -/
def wfDates : Option Json → Bool
  | none => true
  | some (.obj d) =>
      (match lookupKey d "start" with
       | none => true
       | some (.obj s) =>
           (match lookupKey s "localDate" with
            | none => true
            | some (.str _) => true
            | some _ => false)
       | some _ => false) &&
      (match lookupKey d "status" with
       | none => true
       | some (.obj _) => true
       | some _ => false)
  | some _ => false

/-- One name-bearing sub-object (`city`, `state`, `country`): if present it
is an object whose `name` (if any) is a string. -/
def wfNamedPart : Option Json → Bool
  | none => true
  | some (.obj c) =>
      (match lookupKey c "name" with
       | none => true
       | some (.str _) => true
       | some _ => false)
  | some _ => false

/-- The first element of the `venues` list: an object whose city, state and
country are well-formed name-bearing parts. -/
def wfVenue : Json → Bool
  | .obj v =>
      wfNamedPart (lookupKey v "city") && wfNamedPart (lookupKey v "state") &&
      wfNamedPart (lookupKey v "country")
  | _ => false

/-- The `embedded` field feeding the venue block. -/
def wfVenueSection : Option Json → Bool
  | none => true
  | some (.obj em) =>
      (match lookupKey em "_embedded" with
       | none => true
       | some (.obj inner) =>
           (match lookupKey inner "venues" with
            | none => true
            | some (.arr []) => true
            | some (.arr (v :: _)) => wfVenue v
            | some x => !pyTruthy x)
       | some _ => false)
  | some _ => false

/-- The `priceRanges` field: a list whose first element (if any) is an
object, or any falsy value. -/
def wfPriceRanges : Option Json → Bool
  | none => true
  | some (.arr []) => true
  | some (.arr (p :: _)) => (match p with | .obj _ => true | _ => false)
  | some x => !pyTruthy x

/-- One classification component (`segment`, `genre`, `subGenre`): absent,
falsy, or an object whose truthy `name` is a string. -/
def wfComponent : Option Json → Bool
  | none => true
  | some (.obj comp) =>
      (match lookupKey comp "name" with
       | none => true
       | some (.str _) => true
       | some n => !pyTruthy n)
  | some x => !pyTruthy x

/-- The `classifications` field: a list whose first element (if any) is an
object of well-formed components, or any falsy value. -/
def wfClassifications : Option Json → Bool
  | none => true
  | some (.arr []) => true
  | some (.arr (c :: _)) =>
      (match c with
       | .obj cl =>
           wfComponent (lookupKey cl "segment") && wfComponent (lookupKey cl "genre") &&
           wfComponent (lookupKey cl "subGenre")
       | _ => false)
  | some x => !pyTruthy x

/-- A well-formed event record: an object whose optional fields, when
present, have the nested shapes of section 3 of the spec. -/
def wfEvent : Json → Bool
  | .obj kvs =>
      wfDates (lookupKey kvs "dates") && wfVenueSection (lookupKey kvs "embedded") &&
      wfPriceRanges (lookupKey kvs "priceRanges") &&
      wfClassifications (lookupKey kvs "classifications")
  | _ => false

/-- A well-formed Gateway payload: an object that either carries an
`error` entry, or whose `_embedded.events` (if present) is a list of
well-formed events. -/
def wfPayload : Json → Bool
  | .obj kvs =>
      (lookupKey kvs "error").isSome ||
      (match lookupKey kvs "_embedded" with
       | none => true
       | some (.obj inner) =>
           (match lookupKey inner "events" with
            | none => true
            | some (.arr evs) => evs.all wfEvent
            | some x => !pyTruthy x)
       | some _ => false)
  | _ => false

/-! ## Field-absence predicates

Each predicate says the given optional field of an event record is absent,
in the sense of section 3 of the spec: the relevant key (or nested key)
is missing from the record. -/

/-- Is the top-level key `k` absent from the event object? -/
def fieldAbsent (e : Json) (k : String) : Bool :=
  match e with
  | .obj kvs => (lookupKey kvs k).isNone
  | _ => false

/-- The start date is absent: no `dates`, no `dates.start`, or no
`dates.start.localDate`. -/
def dateAbsent : Json → Bool
  | .obj kvs =>
      (match lookupKey kvs "dates" with
       | none => true
       | some (.obj d) =>
           (match lookupKey d "start" with
            | none => true
            | some (.obj s) => (lookupKey s "localDate").isNone
            | some _ => false)
       | some _ => false)
  | _ => false

/-- The sale status is absent: no `dates` or no `dates.status`. -/
def statusAbsent : Json → Bool
  | .obj kvs =>
      (match lookupKey kvs "dates" with
       | none => true
       | some (.obj d) => (lookupKey d "status").isNone
       | some _ => false)
  | _ => false

/-! ## Totality and omission lemmas for the formatter blocks -/

theorem date_info_total (kvs : List (String × Json))
    (h : wfDates (lookupKey kvs "dates") = true) :
    ∃ s, date_info (Json.obj kvs) = .ok s := by
  unfold date_info
  cases hd : lookupKey kvs "dates" with
  | none => simp [pyContains, hd]
  | some d =>
    rw [hd] at h
    cases d with
    | obj dkvs =>
      simp only [wfDates, Bool.and_eq_true] at h
      obtain ⟨h1, h2⟩ := h
      cases hs : lookupKey dkvs "start" with
      | none => simp [pyContains, pyIndex, hd, hs]
      | some st =>
        rw [hs] at h1
        cases st with
        | obj skvs =>
          simp only at h1
          cases hld : lookupKey skvs "localDate" with
          | none => simp [pyContains, pyIndex, hd, hs, hld]
          | some ld =>
            rw [hld] at h1
            cases ld with
            | str s =>
              cases hlt : lookupKey skvs "localTime" with
              | none => simp [pyContains, pyIndex, hd, hs, hld, hlt]
              | some t => simp [pyContains, pyIndex, pyAdd, hd, hs, hld, hlt]
            | null => simp at h1
            | bool b => simp at h1
            | num n => simp at h1
            | arr xs => simp at h1
            | obj o => simp at h1
        | null => simp at h1
        | bool b => simp at h1
        | num n => simp at h1
        | str s => simp at h1
        | arr xs => simp at h1
    | null => simp [wfDates] at h
    | bool b => simp [wfDates] at h
    | num n => simp [wfDates] at h
    | str s => simp [wfDates] at h
    | arr xs => simp [wfDates] at h

theorem date_info_of_absent (kvs : List (String × Json))
    (hwf : wfDates (lookupKey kvs "dates") = true)
    (h : dateAbsent (Json.obj kvs) = true) :
    date_info (Json.obj kvs) = .ok "" := by
  unfold date_info
  simp only [dateAbsent] at h
  cases hd : lookupKey kvs "dates" with
  | none => simp [pyContains, hd]
  | some d =>
    rw [hd] at h hwf
    cases d with
    | obj dkvs =>
      simp only at h
      cases hs : lookupKey dkvs "start" with
      | none => simp [pyContains, pyIndex, hd, hs]
      | some st =>
        rw [hs] at h
        cases st with
        | obj skvs =>
          simp only at h
          cases hld : lookupKey skvs "localDate" with
          | none => simp [pyContains, pyIndex, hd, hs, hld]
          | some ld => rw [hld] at h; simp at h
        | null => simp at h
        | bool b => simp at h
        | num n => simp at h
        | str s => simp at h
        | arr xs => simp at h
    | null => simp [wfDates] at hwf
    | bool b => simp [wfDates] at hwf
    | num n => simp [wfDates] at hwf
    | str s => simp [wfDates] at hwf
    | arr xs => simp [wfDates] at hwf

theorem pyStrValues_total (l : List Json)
    (h : ∀ p ∈ l, ∃ s, p = Json.str s) :
    ∃ out, pyStrValues l = .ok out := by
  induction l with
  | nil => exact ⟨[], rfl⟩
  | cons p rest ih =>
    obtain ⟨s, hs⟩ := h p (List.mem_cons_self p rest)
    obtain ⟨tail, htail⟩ := ih (fun q hq => h q (List.mem_cons_of_mem p hq))
    subst hs
    exact ⟨s :: tail, by simp [pyStrValues, htail]⟩

theorem pyJoinParts_total (l : List Json)
    (h : ∀ p ∈ l, ∃ s, p = Json.str s) :
    ∃ out, pyJoinParts l = .ok out := by
  obtain ⟨strs, hstrs⟩ := pyStrValues_total l h
  exact ⟨String.intercalate ", " strs, by simp [pyJoinParts, hstrs]⟩

/-- Under `wfNamedPart`, the two chained `.get` calls of the venue block
(`venue.get(part, {}).get("name", "")`) return a string. -/
theorem namedPart_name (vkvs : List (String × Json)) (key : String)
    (h : wfNamedPart (lookupKey vkvs key) = true) :
    ∃ s, pyGet ((lookupKey vkvs key).getD (.obj [])) "name" (.str "") = .ok (.str s) := by
  cases hc : lookupKey vkvs key with
  | none => exact ⟨"", by simp [pyGet, lookupKey]⟩
  | some c =>
    rw [hc] at h
    cases c with
    | obj ckvs =>
      simp only [wfNamedPart] at h
      cases hn : lookupKey ckvs "name" with
      | none => exact ⟨"", by simp [pyGet, hn]⟩
      | some n =>
        rw [hn] at h
        cases n with
        | str s => exact ⟨s, by simp [pyGet, hn]⟩
        | null => simp at h
        | bool b => simp at h
        | num m => simp at h
        | arr xs => simp at h
        | obj o => simp at h
    | null => simp [wfNamedPart] at h
    | bool b => simp [wfNamedPart] at h
    | num m => simp [wfNamedPart] at h
    | str s => simp [wfNamedPart] at h
    | arr xs => simp [wfNamedPart] at h

theorem venue_info_total (kvs : List (String × Json))
    (h : wfVenueSection (lookupKey kvs "embedded") = true) :
    ∃ s, venue_info (Json.obj kvs) = .ok s := by
  unfold venue_info
  cases he : lookupKey kvs "embedded" with
  | none => simp [pyContains, he]
  | some em =>
    rw [he] at h
    cases em with
    | obj emkvs =>
      simp only [wfVenueSection] at h
      cases hi : lookupKey emkvs "_embedded" with
      | none => simp [pyContains, pyIndex, he, hi]
      | some inner =>
        rw [hi] at h
        cases inner with
        | obj innerkvs =>
          simp only at h
          cases hv : lookupKey innerkvs "venues" with
          | none => simp [pyContains, pyIndex, he, hi, hv]
          | some venues =>
            rw [hv] at h
            cases venues with
            | arr xs =>
              cases xs with
              | nil => simp [pyContains, pyIndex, pyTruthy, he, hi, hv]
              | cons v vs =>
                simp only at h
                cases v with
                | obj vkvs =>
                  simp only [wfVenue, Bool.and_eq_true] at h
                  obtain ⟨⟨hcity, hstate⟩, hcountry⟩ := h
                  obtain ⟨cs, hcs⟩ := namedPart_name vkvs "city" hcity
                  obtain ⟨ss, hss⟩ := namedPart_name vkvs "state" hstate
                  obtain ⟨ys, hys⟩ := namedPart_name vkvs "country" hcountry
                  have hjoin := pyJoinParts_total
                    (List.filter pyTruthy [Json.str cs, Json.str ss, Json.str ys])
                    (by
                      intro p hp
                      have hp' := List.mem_of_mem_filter hp
                      simp only [List.mem_cons, List.not_mem_nil, or_false] at hp'
                      rcases hp' with h1 | h1 | h1 <;> exact ⟨_, h1⟩)
                  obtain ⟨loc, hloc⟩ := hjoin
                  simp only [pyGet] at hcs hss hys
                  simp [pyContains, pyIndex, pyIndexNat, pyGet, pyTruthy, pyLen,
                        he, hi, hv, hcs, hss, hys, hloc]
                | null => simp [wfVenue] at h
                | bool b => simp [wfVenue] at h
                | num m => simp [wfVenue] at h
                | str s => simp [wfVenue] at h
                | arr ys => simp [wfVenue] at h
            | null => simp [pyContains, pyIndex, pyTruthy, he, hi, hv]
            | bool b =>
              simp only at h
              rw [Bool.not_eq_true'] at h
              simp [pyContains, pyIndex, he, hi, hv, h]
            | num m =>
              simp only at h
              rw [Bool.not_eq_true'] at h
              simp [pyContains, pyIndex, he, hi, hv, h]
            | str s =>
              simp only at h
              rw [Bool.not_eq_true'] at h
              simp [pyContains, pyIndex, he, hi, hv, h]
            | obj o =>
              simp only at h
              rw [Bool.not_eq_true'] at h
              simp [pyContains, pyIndex, he, hi, hv, h]
        | null => simp at h
        | bool b => simp at h
        | num m => simp at h
        | str s => simp at h
        | arr xs => simp at h
    | null => simp [wfVenueSection] at h
    | bool b => simp [wfVenueSection] at h
    | num m => simp [wfVenueSection] at h
    | str s => simp [wfVenueSection] at h
    | arr xs => simp [wfVenueSection] at h

/-- Both branches of a conditional succeed, so the conditional does. -/
theorem ite_ok_total {α : Type} {c : Prop} [Decidable c] {x y : Except String α}
    (hx : ∃ s, x = .ok s) (hy : ∃ s, y = .ok s) :
    ∃ s, (if c then x else y) = .ok s := by
  split
  · exact hx
  · exact hy

theorem price_info_total (kvs : List (String × Json))
    (h : wfPriceRanges (lookupKey kvs "priceRanges") = true) :
    ∃ s, price_info (Json.obj kvs) = .ok s := by
  unfold price_info
  cases hp : lookupKey kvs "priceRanges" with
  | none => simp [pyContains, hp]
  | some pr =>
    rw [hp] at h
    cases pr with
    | arr xs =>
      cases xs with
      | nil => simp [pyContains, pyIndex, pyTruthy, hp]
      | cons p ps =>
        simp only [wfPriceRanges] at h
        cases p with
        | obj prkvs =>
          simp [pyContains, pyIndex, pyIndexNat, pyGet, pyTruthy, pyLen, hp]
          apply ite_ok_total
          · exact ⟨_, rfl⟩
          · exact ite_ok_total ⟨_, rfl⟩ ⟨_, rfl⟩
        | null => simp at h
        | bool b => simp at h
        | num m => simp at h
        | str s => simp at h
        | arr ys => simp at h
    | null => simp [pyContains, pyIndex, pyTruthy, hp]
    | bool b =>
      simp only [wfPriceRanges] at h
      rw [Bool.not_eq_true'] at h
      simp [pyContains, pyIndex, hp, h]
    | num m =>
      simp only [wfPriceRanges] at h
      rw [Bool.not_eq_true'] at h
      simp [pyContains, pyIndex, hp, h]
    | str s =>
      simp only [wfPriceRanges] at h
      rw [Bool.not_eq_true'] at h
      simp [pyContains, pyIndex, hp, h]
    | obj o =>
      simp only [wfPriceRanges] at h
      rw [Bool.not_eq_true'] at h
      simp [pyContains, pyIndex, hp, h]

theorem ticket_info_total (kvs : List (String × Json))
    (h : wfDates (lookupKey kvs "dates") = true) :
    ∃ s, ticket_info (Json.obj kvs) = .ok s := by
  unfold ticket_info
  cases hd : lookupKey kvs "dates" with
  | none => simp [pyContains, hd]
  | some d =>
    rw [hd] at h
    cases d with
    | obj dkvs =>
      simp only [wfDates, Bool.and_eq_true] at h
      obtain ⟨h1, h2⟩ := h
      cases hst : lookupKey dkvs "status" with
      | none => simp [pyContains, pyIndex, hd, hst]
      | some st =>
        rw [hst] at h2
        cases st with
        | obj stkvs =>
          simp [pyContains, pyIndex, pyGet, hd, hst]
          apply ite_ok_total ⟨_, rfl⟩
          apply ite_ok_total ⟨_, rfl⟩
          apply ite_ok_total ⟨_, rfl⟩
          apply ite_ok_total ⟨_, rfl⟩
          exact ite_ok_total ⟨_, rfl⟩ ⟨_, rfl⟩
        | null => simp at h2
        | bool b => simp at h2
        | num m => simp at h2
        | str s => simp at h2
        | arr xs => simp at h2
    | null => simp [wfDates] at h
    | bool b => simp [wfDates] at h
    | num m => simp [wfDates] at h
    | str s => simp [wfDates] at h
    | arr xs => simp [wfDates] at h

theorem url_info_total (kvs : List (String × Json)) :
    ∃ s, url_info (Json.obj kvs) = .ok s := by
  unfold url_info
  cases hu : lookupKey kvs "url" with
  | none => simp [pyContains, hu]
  | some u => simp [pyContains, pyIndex, hu]

theorem component_names_total (clkvs : List (String × Json)) (key : String)
    (h : wfComponent (lookupKey clkvs key) = true) :
    ∃ l, component_names (Json.obj clkvs) key = .ok l := by
  unfold component_names
  cases hk : lookupKey clkvs key with
  | none => simp [pyContains, hk]
  | some comp =>
    rw [hk] at h
    cases comp with
    | obj compkvs =>
      simp only [wfComponent] at h
      simp only [pyContains, hk, Option.isSome_some, if_true, exBindOk, pyIndex]
      apply ite_ok_total
      · simp only [pyGet, exBindOk]
        cases hn : lookupKey compkvs "name" with
        | none => simp [pyTruthy]
        | some n =>
          rw [hn] at h
          cases n with
          | str s =>
            simp only [Option.getD_some]
            apply ite_ok_total
            · simp only [pyLower, exBindOk]
              exact ite_ok_total ⟨_, rfl⟩ ⟨_, rfl⟩
            · exact ⟨_, rfl⟩
          | null => simp [pyTruthy]
          | bool b =>
            rw [Bool.not_eq_true'] at h
            simp [h]
          | num m =>
            rw [Bool.not_eq_true'] at h
            simp [h]
          | arr xs =>
            rw [Bool.not_eq_true'] at h
            simp [h]
          | obj o =>
            rw [Bool.not_eq_true'] at h
            simp [h]
      · exact ⟨_, rfl⟩
    | null => simp [pyContains, pyIndex, pyTruthy, hk]
    | bool b =>
      simp only [wfComponent] at h
      rw [Bool.not_eq_true'] at h
      simp [pyContains, pyIndex, hk, h]
    | num m =>
      simp only [wfComponent] at h
      rw [Bool.not_eq_true'] at h
      simp [pyContains, pyIndex, hk, h]
    | str s =>
      simp only [wfComponent] at h
      rw [Bool.not_eq_true'] at h
      simp [pyContains, pyIndex, hk, h]
    | arr xs =>
      simp only [wfComponent] at h
      rw [Bool.not_eq_true'] at h
      simp [pyContains, pyIndex, hk, h]

theorem classification_segments_total (clkvs : List (String × Json))
    (h1 : wfComponent (lookupKey clkvs "segment") = true)
    (h2 : wfComponent (lookupKey clkvs "genre") = true)
    (h3 : wfComponent (lookupKey clkvs "subGenre") = true) :
    ∃ l, classification_segments (Json.obj clkvs) = .ok l := by
  obtain ⟨l1, e1⟩ := component_names_total clkvs "segment" h1
  obtain ⟨l2, e2⟩ := component_names_total clkvs "genre" h2
  obtain ⟨l3, e3⟩ := component_names_total clkvs "subGenre" h3
  exact ⟨l1 ++ l2 ++ l3, by simp [classification_segments, e1, e2, e3]⟩

theorem genre_info_total (kvs : List (String × Json))
    (h : wfClassifications (lookupKey kvs "classifications") = true) :
    ∃ s, genre_info (Json.obj kvs) = .ok s := by
  unfold genre_info
  cases hc : lookupKey kvs "classifications" with
  | none => simp [pyContains, hc]
  | some cls =>
    rw [hc] at h
    cases cls with
    | arr xs =>
      cases xs with
      | nil => simp [pyContains, pyIndex, pyTruthy, hc]
      | cons c cs =>
        simp only [wfClassifications] at h
        cases c with
        | obj clkvs =>
          simp only [Bool.and_eq_true] at h
          obtain ⟨⟨hs1, hs2⟩, hs3⟩ := h
          obtain ⟨l, hl⟩ := classification_segments_total clkvs hs1 hs2 hs3
          simp [pyContains, pyIndex, pyIndexNat, pyTruthy, hc, hl]
          exact ite_ok_total ⟨_, rfl⟩ ⟨_, rfl⟩
        | null => simp at h
        | bool b => simp at h
        | num m => simp at h
        | str s => simp at h
        | arr ys => simp at h
    | null => simp [pyContains, pyIndex, pyTruthy, hc]
    | bool b =>
      simp only [wfClassifications] at h
      rw [Bool.not_eq_true'] at h
      simp [pyContains, pyIndex, hc, h]
    | num m =>
      simp only [wfClassifications] at h
      rw [Bool.not_eq_true'] at h
      simp [pyContains, pyIndex, hc, h]
    | str s =>
      simp only [wfClassifications] at h
      rw [Bool.not_eq_true'] at h
      simp [pyContains, pyIndex, hc, h]
    | obj o =>
      simp only [wfClassifications] at h
      rw [Bool.not_eq_true'] at h
      simp [pyContains, pyIndex, hc, h]

theorem format_event_total (e : Json) (h : wfEvent e = true) :
    ∃ s, format_event e = .ok s := by
  cases e with
  | obj kvs =>
    simp only [wfEvent, Bool.and_eq_true] at h
    obtain ⟨⟨⟨hdates, hemb⟩, hprice⟩, hcls⟩ := h
    obtain ⟨s1, e1⟩ := date_info_total kvs hdates
    obtain ⟨s2, e2⟩ := venue_info_total kvs hemb
    obtain ⟨s3, e3⟩ := price_info_total kvs hprice
    obtain ⟨s4, e4⟩ := ticket_info_total kvs hdates
    obtain ⟨s5, e5⟩ := url_info_total kvs
    obtain ⟨s6, e6⟩ := genre_info_total kvs hcls
    simp [format_event, pyGet, e1, e2, e3, e4, e5, e6]
  | null => simp [wfEvent] at h
  | bool b => simp [wfEvent] at h
  | num m => simp [wfEvent] at h
  | str s => simp [wfEvent] at h
  | arr xs => simp [wfEvent] at h

theorem formatEventList_total (evs : List Json)
    (h : ∀ e ∈ evs, wfEvent e = true) :
    ∃ l, formatEventList evs = .ok l := by
  induction evs with
  | nil => exact ⟨[], rfl⟩
  | cons e rest ih =>
    obtain ⟨s, hs⟩ := format_event_total e (h e (List.mem_cons_self e rest))
    obtain ⟨tail, htail⟩ := ih (fun q hq => h q (List.mem_cons_of_mem e hq))
    exact ⟨s :: tail, by simp [formatEventList, hs, htail]⟩

/-! ## Omission lemmas: an absent optional field contributes nothing -/

theorem venue_info_of_no_embedded (kvs : List (String × Json))
    (h : lookupKey kvs "embedded" = none) :
    venue_info (Json.obj kvs) = .ok "" := by
  simp [venue_info, pyContains, h]

theorem genre_info_of_no_classifications (kvs : List (String × Json))
    (h : lookupKey kvs "classifications" = none) :
    genre_info (Json.obj kvs) = .ok "" := by
  simp [genre_info, pyContains, h]

theorem price_info_of_no_priceRanges (kvs : List (String × Json))
    (h : lookupKey kvs "priceRanges" = none) :
    price_info (Json.obj kvs) = .ok "" := by
  simp [price_info, pyContains, h]

theorem url_info_of_no_url (kvs : List (String × Json))
    (h : lookupKey kvs "url" = none) :
    url_info (Json.obj kvs) = .ok "" := by
  simp [url_info, pyContains, h]

theorem ticket_info_of_absent (kvs : List (String × Json))
    (hwf : wfDates (lookupKey kvs "dates") = true)
    (h : statusAbsent (Json.obj kvs) = true) :
    ticket_info (Json.obj kvs) = .ok "" := by
  unfold ticket_info
  simp only [statusAbsent] at h
  cases hd : lookupKey kvs "dates" with
  | none => simp [pyContains, hd]
  | some d =>
    rw [hd] at h hwf
    cases d with
    | obj dkvs =>
      simp only at h
      cases hst : lookupKey dkvs "status" with
      | none => simp [pyContains, pyIndex, hd, hst]
      | some st => rw [hst] at h; simp at h
    | null => simp at h
    | bool b => simp at h
    | num m => simp at h
    | str s => simp at h
    | arr xs => simp at h

/-! ## Payload-level lemmas for the artist entry point -/

theorem extract_events_no_embedded (kvs : List (String × Json))
    (h : lookupKey kvs "_embedded" = none) :
    extract_events (Json.obj kvs) = .ok (.arr []) := by
  simp [extract_events, pyContains, h]

theorem extract_events_no_events (kvs inner : List (String × Json))
    (h1 : lookupKey kvs "_embedded" = some (.obj inner))
    (h2 : lookupKey inner "events" = none) :
    extract_events (Json.obj kvs) = .ok (.arr []) := by
  simp [extract_events, pyContains, pyIndex, h1, h2]

theorem extract_events_found (kvs inner : List (String × Json)) (v : Json)
    (h1 : lookupKey kvs "_embedded" = some (.obj inner))
    (h2 : lookupKey inner "events" = some v) :
    extract_events (Json.obj kvs) = .ok v := by
  simp [extract_events, pyContains, pyIndex, h1, h2]

theorem search_artist_result_of_error (artist : String) (kvs : List (String × Json))
    (v : Json) (h : lookupKey kvs "error" = some v) :
    search_artist_result artist (Json.obj kvs) = .ok ("Error: " ++ pyStr v) := by
  simp [search_artist_result, pyContains, pyIndex, h]

theorem search_artist_result_of_empty (artist : String) (kvs : List (String × Json))
    (herr : lookupKey kvs "error" = none)
    (hex : extract_events (Json.obj kvs) = .ok (.arr [])) :
    search_artist_result artist (Json.obj kvs) =
      .ok ("No upcoming events found for artist: " ++ artist) := by
  simp [search_artist_result, pyContains, pyTruthy, herr, hex]

theorem search_artist_result_total (artist : String) (data : Json)
    (h : wfPayload data = true) :
    ∃ s, search_artist_result artist data = .ok s := by
  cases data with
  | obj kvs =>
    simp only [wfPayload, Bool.or_eq_true] at h
    cases herr : lookupKey kvs "error" with
    | some v => exact ⟨_, search_artist_result_of_error artist kvs v herr⟩
    | none =>
      rw [herr] at h
      simp only [Option.isSome_none, Bool.false_eq_true, false_or] at h
      cases hemb : lookupKey kvs "_embedded" with
      | none =>
        exact ⟨_, search_artist_result_of_empty artist kvs herr
          (extract_events_no_embedded kvs hemb)⟩
      | some emb =>
        rw [hemb] at h
        cases emb with
        | obj inner =>
          simp only at h
          cases hev : lookupKey inner "events" with
          | none =>
            exact ⟨_, search_artist_result_of_empty artist kvs herr
              (extract_events_no_events kvs inner hemb hev)⟩
          | some v =>
            rw [hev] at h
            have hex := extract_events_found kvs inner v hemb hev
            cases v with
            | arr evs =>
              cases evs with
              | nil =>
                exact ⟨_, search_artist_result_of_empty artist kvs herr hex⟩
              | cons e rest =>
                simp only at h
                rw [List.all_eq_true] at h
                obtain ⟨l, hl⟩ := formatEventList_total (e :: rest) h
                simp [search_artist_result, pyContains, pyTruthy, pyIterate,
                      herr, hex, hl]
            | null =>
              simp only at h
              rw [Bool.not_eq_true'] at h
              simp only [pyTruthy] at h
              simp [search_artist_result, pyContains, pyTruthy, pyIterate,
                    herr, hex, h]
            | bool b =>
              simp only at h
              rw [Bool.not_eq_true'] at h
              simp only [pyTruthy] at h
              simp [search_artist_result, pyContains, pyTruthy, pyIterate,
                    herr, hex, h]
            | num m =>
              simp only at h
              rw [Bool.not_eq_true'] at h
              simp only [pyTruthy] at h
              simp [search_artist_result, pyContains, pyTruthy, pyIterate,
                    herr, hex, h]
            | str s =>
              simp only at h
              rw [Bool.not_eq_true'] at h
              simp only [pyTruthy] at h
              simp [search_artist_result, pyContains, pyTruthy, pyIterate,
                    herr, hex, h]
            | obj o =>
              simp only at h
              rw [Bool.not_eq_true'] at h
              simp only [pyTruthy] at h
              simp [search_artist_result, pyContains, pyTruthy, pyIterate,
                    herr, hex, h]
        | null => simp at h
        | bool b => simp at h
        | num m => simp at h
        | str s => simp at h
        | arr xs => simp at h
  | null => simp [wfPayload] at h
  | bool b => simp [wfPayload] at h
  | num m => simp [wfPayload] at h
  | str s => simp [wfPayload] at h
  | arr xs => simp [wfPayload] at h

/-! ## Association-list update lemmas (for the `params` mutation) -/

theorem lookupKey_pySetItem_self (l : List (String × Json)) (k : String) (v : Json) :
    lookupKey (pySetItem l k v) k = some v := by
  induction l with
  | nil => simp [pySetItem, lookupKey]
  | cons p rest ih =>
    obtain ⟨k', v'⟩ := p
    by_cases hk : k' = k
    · subst hk
      simp [pySetItem, lookupKey]
    · simp [pySetItem, lookupKey, hk, ih]

theorem lookupKey_pySetItem_other (l : List (String × Json)) (k : String) (v : Json)
    (k' : String) (hne : k' ≠ k) :
    lookupKey (pySetItem l k v) k' = lookupKey l k' := by
  induction l with
  | nil => simp [pySetItem, lookupKey, Ne.symm hne]
  | cons p rest ih =>
    obtain ⟨k'', v''⟩ := p
    by_cases hk : k'' = k
    · subst hk
      simp [pySetItem, lookupKey, Ne.symm hne]
    · simp only [pySetItem, if_neg hk, lookupKey]
      by_cases hk2 : k'' = k'
      · simp [hk2]
      · simp [hk2, ih]

/-! ## Spec-side notions used to state the claims -/

/-- The name a classification component presents, as the spec describes it:
the `name` string of the component object under the given key, when both
are present. -/
def optComponentName (cl : List (String × Json)) (key : String) : List String :=
  match lookupKey cl key with
  | some (.obj comp) =>
      (match lookupKey comp "name" with
       | some (.str s) => [s]
       | _ => [])
  | _ => []

/-- The names of the present components of a classification, in the
spec's segment, genre, subgenre order. -/
def specPresentNames (cl : List (String × Json)) : List String :=
  optComponentName cl "segment" ++ optComponentName cl "genre" ++
    optComponentName cl "subGenre"

/-- The nested path `event["embedded"]["_embedded"]["venues"]` that the
venue block of `format_event` actually reads. -/
def embeddedVenuesPath : Json → Option Json
  | .obj kvs =>
      (match lookupKey kvs "embedded" with
       | some (.obj em) =>
           (match lookupKey em "_embedded" with
            | some (.obj inner) => lookupKey inner "venues"
            | _ => none)
       | _ => none)
  | _ => none

/-- Whether the Gateway's HTTP request failed (any outcome other than a
2xx response with a JSON body). -/
def gatewayFailed : HttpOutcome → Bool
  | .success _ => false
  | _ => true


/-- Whatever `component_names` returns is a sub-list of the present
component's name and never the placeholder "undefined" (in any case). -/
theorem component_names_spec (cl : List (String × Json)) (key : String)
    (l : List String) (h : component_names (Json.obj cl) key = .ok l) :
    l.Sublist (optComponentName cl key) ∧ ∀ s ∈ l, strLower s ≠ "undefined" := by
  unfold component_names at h
  cases hk : lookupKey cl key with
  | none =>
    simp [pyContains, hk] at h
    subst h
    exact ⟨List.nil_sublist _, by simp⟩
  | some comp =>
    simp only [pyContains, hk, Option.isSome_some, if_true, exBindOk, pyIndex] at h
    cases comp with
    | obj compkvs =>
      split at h
      · simp only [pyGet, exBindOk] at h
        cases hn : lookupKey compkvs "name" with
        | none =>
          rw [hn] at h
          simp only [Option.getD_none, pyTruthy] at h
          simp at h
          subst h
          exact ⟨List.nil_sublist _, by simp⟩
        | some n =>
          rw [hn] at h
          simp only [Option.getD_some] at h
          cases n with
          | str s =>
            simp only [optComponentName, hk, hn]
            simp only [pyLower, exBindOk, pyStr] at h
            split at h
            · by_cases hund : strLower s ≠ "undefined"
              · rw [if_pos hund] at h
                simp only [exPure, Except.ok.injEq] at h
                subst h
                refine ⟨List.Sublist.refl _, ?_⟩
                intro x hx
                rcases List.mem_singleton.mp hx with rfl
                exact hund
              · rw [if_neg hund] at h
                simp only [exPure, Except.ok.injEq] at h
                subst h
                exact ⟨List.nil_sublist _, by simp⟩
            · simp only [exPure, Except.ok.injEq] at h
              subst h
              exact ⟨List.nil_sublist _, by simp⟩
          | null =>
            simp only [pyTruthy] at h
            simp at h
            subst h
            exact ⟨List.nil_sublist _, by simp⟩
          | bool b =>
            split at h
            · simp [pyLower] at h
            · simp only [exPure, Except.ok.injEq] at h
              subst h
              exact ⟨List.nil_sublist _, by simp⟩
          | num m =>
            split at h
            · simp [pyLower] at h
            · simp only [exPure, Except.ok.injEq] at h
              subst h
              exact ⟨List.nil_sublist _, by simp⟩
          | arr xs =>
            split at h
            · simp [pyLower] at h
            · simp only [exPure, Except.ok.injEq] at h
              subst h
              exact ⟨List.nil_sublist _, by simp⟩
          | obj o =>
            split at h
            · simp [pyLower] at h
            · simp only [exPure, Except.ok.injEq] at h
              subst h
              exact ⟨List.nil_sublist _, by simp⟩
      · simp only [exPure, Except.ok.injEq] at h
        subst h
        exact ⟨List.nil_sublist _, by simp⟩
    | null =>
      simp only [pyTruthy] at h
      simp at h
      subst h
      exact ⟨List.nil_sublist _, by simp⟩
    | bool b =>
      split at h
      · simp [pyGet] at h
      · simp only [exPure, Except.ok.injEq] at h
        subst h
        exact ⟨List.nil_sublist _, by simp⟩
    | num m =>
      split at h
      · simp [pyGet] at h
      · simp only [exPure, Except.ok.injEq] at h
        subst h
        exact ⟨List.nil_sublist _, by simp⟩
    | str st =>
      split at h
      · simp [pyGet] at h
      · simp only [exPure, Except.ok.injEq] at h
        subst h
        exact ⟨List.nil_sublist _, by simp⟩
    | arr xs =>
      split at h
      · simp [pyGet] at h
      · simp only [exPure, Except.ok.injEq] at h
        subst h
        exact ⟨List.nil_sublist _, by simp⟩

/-- A successful `classification_segments` run decomposes into the three
component runs. -/
theorem classification_segments_decomp (cl : List (String × Json))
    (segs : List String) (h : classification_segments (Json.obj cl) = .ok segs) :
    ∃ l1 l2 l3,
      component_names (Json.obj cl) "segment" = .ok l1 ∧
      component_names (Json.obj cl) "genre" = .ok l2 ∧
      component_names (Json.obj cl) "subGenre" = .ok l3 ∧
      segs = l1 ++ l2 ++ l3 := by
  unfold classification_segments at h
  cases e1 : component_names (Json.obj cl) "segment" with
  | error msg => rw [e1] at h; simp at h
  | ok l1 =>
    rw [e1] at h
    cases e2 : component_names (Json.obj cl) "genre" with
    | error msg => rw [e2] at h; simp at h
    | ok l2 =>
      rw [e2] at h
      cases e3 : component_names (Json.obj cl) "subGenre" with
      | error msg => rw [e3] at h; simp at h
      | ok l3 =>
        rw [e3] at h
        simp only [exBindOk, exPure, Except.ok.injEq] at h
        exact ⟨l1, l2, l3, rfl, rfl, rfl, h.symm⟩

/-- The genre line of `format_event`, when the classifications list is
present and its first element yields the segment list `segs`. -/
theorem genre_info_eq (kvs clkvs : List (String × Json)) (rest : List Json)
    (segs : List String)
    (hc : lookupKey kvs "classifications" = some (.arr (.obj clkvs :: rest)))
    (hs : classification_segments (Json.obj clkvs) = .ok segs) :
    genre_info (Json.obj kvs) =
      .ok (if segs.isEmpty then ""
           else "Genre: " ++ String.intercalate " | " segs ++ "\n") := by
  cases hse : segs.isEmpty with
  | true =>
    have hnil : segs = [] := by simpa using hse
    subst hnil
    simp [genre_info, pyContains, pyIndex, pyIndexNat, pyTruthy, hc, hs]
  | false =>
    have hne : segs ≠ [] := by simpa using hse
    simp [genre_info, pyContains, pyIndex, pyIndexNat, pyTruthy, hc, hs, hse, hne]

/-- A non-empty venue line can only be produced when the code's actual
path `event["embedded"]["_embedded"]["venues"]` is present. -/
theorem venue_info_needs_path (e : Json) (s : String)
    (h : venue_info e = .ok s) (hs : s ≠ "") :
    (embeddedVenuesPath e).isSome = true := by
  cases e with
  | null => simp [venue_info, pyContains] at h
  | bool b => simp [venue_info, pyContains] at h
  | num m => simp [venue_info, pyContains] at h
  | str st =>
    simp only [venue_info, pyContains, exBindOk] at h
    split at h
    · simp [pyIndex] at h
    · simp only [exPure, Except.ok.injEq] at h
      exact absurd h.symm hs
  | arr xs =>
    simp only [venue_info, pyContains, exBindOk] at h
    split at h
    · simp [pyIndex] at h
    · simp only [exPure, Except.ok.injEq] at h
      exact absurd h.symm hs
  | obj kvs =>
    cases he : lookupKey kvs "embedded" with
    | none =>
      rw [venue_info_of_no_embedded kvs he] at h
      simp only [Except.ok.injEq] at h
      exact absurd h.symm hs
    | some em =>
      cases em with
      | null => simp [venue_info, pyContains, pyIndex, he] at h
      | bool b => simp [venue_info, pyContains, pyIndex, he] at h
      | num m => simp [venue_info, pyContains, pyIndex, he] at h
      | str st =>
        simp only [venue_info, pyContains, pyIndex, he, Option.isSome_some,
                   if_true, exBindOk] at h
        split at h
        · simp at h
        · simp only [exPure, Except.ok.injEq] at h
          exact absurd h.symm hs
      | arr ys =>
        simp only [venue_info, pyContains, pyIndex, he, Option.isSome_some,
                   if_true, exBindOk] at h
        split at h
        · simp at h
        · simp only [exPure, Except.ok.injEq] at h
          exact absurd h.symm hs
      | obj emkvs =>
        cases hi : lookupKey emkvs "_embedded" with
        | none =>
          simp [venue_info, pyContains, pyIndex, he, hi] at h
          exact absurd h.symm hs
        | some inner =>
          cases inner with
          | null => simp [venue_info, pyContains, pyIndex, he, hi] at h
          | bool b => simp [venue_info, pyContains, pyIndex, he, hi] at h
          | num m => simp [venue_info, pyContains, pyIndex, he, hi] at h
          | str st =>
            simp only [venue_info, pyContains, pyIndex, he, hi,
                       Option.isSome_some, if_true, exBindOk] at h
            split at h
            · simp at h
            · simp only [exPure, Except.ok.injEq] at h
              exact absurd h.symm hs
          | arr ys =>
            simp only [venue_info, pyContains, pyIndex, he, hi,
                       Option.isSome_some, if_true, exBindOk] at h
            split at h
            · simp at h
            · simp only [exPure, Except.ok.injEq] at h
              exact absurd h.symm hs
          | obj innerkvs =>
            cases hv : lookupKey innerkvs "venues" with
            | none =>
              simp [venue_info, pyContains, pyIndex, he, hi, hv] at h
              exact absurd h.symm hs
            | some v => simp [embeddedVenuesPath, he, hi, hv]

/-- The price line when integer `min` and `max` are both present and the
currency is omitted: the code keys on Python truthiness, so a zero price
suppresses the line. -/
theorem price_info_minmax (kvs pr : List (String × Json)) (rest : List Json)
    (m M : Int)
    (hp : lookupKey kvs "priceRanges" = some (.arr (.obj pr :: rest)))
    (hmin : lookupKey pr "min" = some (.num m))
    (hmax : lookupKey pr "max" = some (.num M))
    (hcur : lookupKey pr "currency" = none) :
    price_info (Json.obj kvs) =
      .ok (if m ≠ 0 ∧ M ≠ 0 then
             "Price Range: " ++ toString m ++ "-" ++ toString M ++ " USD\n"
           else if m ≠ 0 then "Starting Price: " ++ toString m ++ " USD\n"
           else "") := by
  by_cases hm : m = 0 <;> by_cases hM : M = 0 <;>
    simp [price_info, pyContains, pyIndex, pyIndexNat, pyGet, pyTruthy, pyLen,
          pyStr, pyRepr, String.append_assoc, hp, hmin, hmax, hcur, hm, hM]

/-- The price line when only an integer `min` is present and the currency
is omitted. -/
theorem price_info_min_only (kvs pr : List (String × Json)) (rest : List Json)
    (m : Int)
    (hp : lookupKey kvs "priceRanges" = some (.arr (.obj pr :: rest)))
    (hmin : lookupKey pr "min" = some (.num m))
    (hmax : lookupKey pr "max" = none)
    (hcur : lookupKey pr "currency" = none) :
    price_info (Json.obj kvs) =
      .ok (if m ≠ 0 then "Starting Price: " ++ toString m ++ " USD\n" else "") := by
  by_cases hm : m = 0 <;>
    simp [price_info, pyContains, pyIndex, pyIndexNat, pyGet, pyTruthy, pyLen,
          pyStr, pyRepr, String.append_assoc, hp, hmin, hmax, hcur, hm]

/-! ## The claims -/

/-- C1: for every (well-formed) event record and every optional field
(date, venue, genre, price range, ticket status, URL), if the field is
absent from the record then the corresponding `format_event` block
contributes the empty string — so the returned text has no such line —
and `format_event` still returns a string (`Except.ok`) rather than
failing. -/
theorem c1_optional_fields_graceful (e : Json) (hwf : wfEvent e = true) :
    (∃ s, format_event e = .ok s) ∧
    (dateAbsent e = true → date_info e = .ok "") ∧
    (fieldAbsent e "embedded" = true → venue_info e = .ok "") ∧
    (fieldAbsent e "classifications" = true → genre_info e = .ok "") ∧
    (fieldAbsent e "priceRanges" = true → price_info e = .ok "") ∧
    (statusAbsent e = true → ticket_info e = .ok "") ∧
    (fieldAbsent e "url" = true → url_info e = .ok "") := by
  cases e with
  | obj kvs =>
    have hwf' := hwf
    simp only [wfEvent, Bool.and_eq_true] at hwf'
    obtain ⟨⟨⟨hdates, hemb⟩, hprice⟩, hcls⟩ := hwf'
    refine ⟨format_event_total _ hwf, ?_, ?_, ?_, ?_, ?_, ?_⟩
    · intro hab
      exact date_info_of_absent kvs hdates hab
    · intro hab
      simp only [fieldAbsent, Option.isNone_iff_eq_none] at hab
      exact venue_info_of_no_embedded kvs hab
    · intro hab
      simp only [fieldAbsent, Option.isNone_iff_eq_none] at hab
      exact genre_info_of_no_classifications kvs hab
    · intro hab
      simp only [fieldAbsent, Option.isNone_iff_eq_none] at hab
      exact price_info_of_no_priceRanges kvs hab
    · intro hab
      exact ticket_info_of_absent kvs hdates hab
    · intro hab
      simp only [fieldAbsent, Option.isNone_iff_eq_none] at hab
      exact url_info_of_no_url kvs hab
  | null => simp [wfEvent] at hwf
  | bool b => simp [wfEvent] at hwf
  | num m => simp [wfEvent] at hwf
  | str s => simp [wfEvent] at hwf
  | arr xs => simp [wfEvent] at hwf

/-- Witness for C1 at the empty event record, which lacks every optional
field. -/
theorem c1_witness :
    wfEvent (Json.obj []) = true ∧
    ((∃ s, format_event (Json.obj []) = .ok s) ∧
     (dateAbsent (Json.obj []) = true → date_info (Json.obj []) = .ok "") ∧
     (fieldAbsent (Json.obj []) "embedded" = true → venue_info (Json.obj []) = .ok "") ∧
     (fieldAbsent (Json.obj []) "classifications" = true → genre_info (Json.obj []) = .ok "") ∧
     (fieldAbsent (Json.obj []) "priceRanges" = true → price_info (Json.obj []) = .ok "") ∧
     (statusAbsent (Json.obj []) = true → ticket_info (Json.obj []) = .ok "") ∧
     (fieldAbsent (Json.obj []) "url" = true → url_info (Json.obj []) = .ok "")) :=
  ⟨rfl, c1_optional_fields_graceful (Json.obj []) rfl⟩

/-- C2: a payload without the `_embedded.events` path — no `_embedded`
key, or an `_embedded` object without an `events` key — makes
`extract_events` return the empty list, with no failure. -/
theorem c2_extract_events_empty (kvs : List (String × Json))
    (h : lookupKey kvs "_embedded" = none ∨
         ∃ inner, lookupKey kvs "_embedded" = some (.obj inner) ∧
           lookupKey inner "events" = none) :
    extract_events (Json.obj kvs) = .ok (.arr []) := by
  rcases h with h | ⟨inner, h1, h2⟩
  · exact extract_events_no_embedded kvs h
  · exact extract_events_no_events kvs inner h1 h2

/-- Witness for C2 at the empty payload. -/
theorem c2_witness : extract_events (Json.obj []) = .ok (.arr []) :=
  c2_extract_events_empty [] (Or.inl rfl)

/-- C3 as stated is false: with `min = 0` and `max = 50` both present and
the currency omitted, the code produces no price line at all instead of
"Price Range: 0-50 USD", because it tests Python truthiness rather than
presence. -/
theorem c3_counterexample :
    price_info (Json.obj
      [("priceRanges", .arr [.obj [("min", .num 0), ("max", .num 50)]])]) = .ok "" ∧
    ("" : String) ≠ "Price Range: 0-50 USD\n" :=
  ⟨rfl, by decide⟩

/-- C3, amended: for a present price range with integer `min`/`max` and the
currency omitted, the price line reads "Price Range: <min>-<max> USD" when
both are present *and nonzero*, "Starting Price: <min> USD" when `min` is
present and nonzero but `max` is absent, nothing when `min` is zero or
absent; the line is omitted entirely when no price range is present. -/
theorem c3_amended_price_lines :
    (∀ (kvs pr : List (String × Json)) (rest : List Json) (m M : Int),
       lookupKey kvs "priceRanges" = some (.arr (.obj pr :: rest)) →
       lookupKey pr "min" = some (.num m) →
       lookupKey pr "max" = some (.num M) →
       lookupKey pr "currency" = none →
       price_info (Json.obj kvs) =
         .ok (if m ≠ 0 ∧ M ≠ 0 then
                "Price Range: " ++ toString m ++ "-" ++ toString M ++ " USD\n"
              else if m ≠ 0 then "Starting Price: " ++ toString m ++ " USD\n"
              else "")) ∧
    (∀ (kvs pr : List (String × Json)) (rest : List Json) (m : Int),
       lookupKey kvs "priceRanges" = some (.arr (.obj pr :: rest)) →
       lookupKey pr "min" = some (.num m) →
       lookupKey pr "max" = none →
       lookupKey pr "currency" = none →
       price_info (Json.obj kvs) =
         .ok (if m ≠ 0 then "Starting Price: " ++ toString m ++ " USD\n" else "")) ∧
    (∀ kvs : List (String × Json), lookupKey kvs "priceRanges" = none →
       price_info (Json.obj kvs) = .ok "") :=
  ⟨fun kvs pr rest m M hp hmin hmax hcur =>
     price_info_minmax kvs pr rest m M hp hmin hmax hcur,
   fun kvs pr rest m hp hmin hmax hcur =>
     price_info_min_only kvs pr rest m hp hmin hmax hcur,
   fun kvs h => price_info_of_no_priceRanges kvs h⟩

/-- Witness for the amended C3 at the spec's own example
(min = 20, max = 50, currency omitted). -/
theorem c3_witness :
    price_info (Json.obj
      [("priceRanges", .arr [.obj [("min", .num 20), ("max", .num 50)]])]) =
      .ok "Price Range: 20-50 USD\n" := by
  have h := c3_amended_price_lines.1
    [("priceRanges", .arr [.obj [("min", .num 20), ("max", .num 50)]])]
    [("min", .num 20), ("max", .num 50)] [] 20 50 rfl rfl rfl rfl
  simpa using h

/-- C4: the genre line is the pipe-joined list of segment, genre, subgenre
names in that order — a sub-list of the names the present components carry;
a component is included only if it is present and its name is not
case-insensitively "undefined"; if no component survives the line is
omitted (empty). -/
theorem c4_genre_line (kvs clkvs : List (String × Json)) (rest : List Json)
    (segs : List String)
    (hc : lookupKey kvs "classifications" = some (.arr (.obj clkvs :: rest)))
    (hs : classification_segments (Json.obj clkvs) = .ok segs) :
    genre_info (Json.obj kvs) =
      .ok (if segs.isEmpty then ""
           else "Genre: " ++ String.intercalate " | " segs ++ "\n") ∧
    segs.Sublist (specPresentNames clkvs) ∧
    (∀ s ∈ segs, strLower s ≠ "undefined") := by
  obtain ⟨l1, l2, l3, e1, e2, e3, hdecomp⟩ :=
    classification_segments_decomp clkvs segs hs
  obtain ⟨sub1, und1⟩ := component_names_spec clkvs "segment" l1 e1
  obtain ⟨sub2, und2⟩ := component_names_spec clkvs "genre" l2 e2
  obtain ⟨sub3, und3⟩ := component_names_spec clkvs "subGenre" l3 e3
  subst hdecomp
  refine ⟨genre_info_eq kvs clkvs rest _ hc hs, ?_, ?_⟩
  · exact List.Sublist.append (List.Sublist.append sub1 sub2) sub3
  · intro s hsmem
    rcases List.mem_append.mp hsmem with hsm | hsm
    · rcases List.mem_append.mp hsm with hsm2 | hsm2
      · exact und1 s hsm2
      · exact und2 s hsm2
    · exact und3 s hsm

/-- Witness for C4: a classification whose genre component is the
placeholder "Undefined" drops exactly that component. -/
theorem c4_witness :
    genre_info (Json.obj [("classifications", .arr [.obj
      [("segment", .obj [("name", .str "Music")]),
       ("genre", .obj [("name", .str "Undefined")]),
       ("subGenre", .obj [("name", .str "Rock")])]])]) =
      .ok "Genre: Music | Rock\n" ∧
    ["Music", "Rock"].Sublist (specPresentNames
      [("segment", .obj [("name", .str "Music")]),
       ("genre", .obj [("name", .str "Undefined")]),
       ("subGenre", .obj [("name", .str "Rock")])]) ∧
    (∀ s ∈ ["Music", "Rock"], strLower s ≠ "undefined") := by
  have h := c4_genre_line
    [("classifications", .arr [.obj
      [("segment", .obj [("name", .str "Music")]),
       ("genre", .obj [("name", .str "Undefined")]),
       ("subGenre", .obj [("name", .str "Rock")])]])]
    [("segment", .obj [("name", .str "Music")]),
     ("genre", .obj [("name", .str "Undefined")]),
     ("subGenre", .obj [("name", .str "Rock")])]
    [] ["Music", "Rock"] rfl rfl
  exact ⟨by simpa using h.1, h.2.1, h.2.2⟩

/-- C5: an HTTP 429 outcome is classified by the Gateway as the
rate-limited failure, and the artist entry point then returns a string
that starts with "Error:" and mentions the rate limit. -/
theorem c5_rate_limited (artist : String) :
    make_ticketmaster_request (.statusError 429) =
      .obj [("error", .str "Rate limit exceeded. Please try again later.")] ∧
    search_events_by_artist artist (.statusError 429) =
      .ok "Error: Rate limit exceeded. Please try again later." ∧
    (∃ r, "Error: Rate limit exceeded. Please try again later." =
       "Error:" ++ r) ∧
    (∃ p q, "Error: Rate limit exceeded. Please try again later." =
       p ++ "Rate limit" ++ q) :=
  ⟨rfl, rfl,
   ⟨" Rate limit exceeded. Please try again later.", rfl⟩,
   ⟨"Error: ", " exceeded. Please try again later.", rfl⟩⟩

/-- C6: the venue entry point sends a `venueId` filter exactly when the
supplied identifier matches the `KovZ` id-prefix pattern and a `keyword`
filter exactly otherwise — never both; in particular "KovZ917M" goes out
as a venue id and "Madison Square Garden" as a keyword. -/
theorem c6_venue_filter (venue : String) (size : Int) :
    (lookupKey (venue_search_params venue size) "venueId").isSome =
      strStartsWith venue "KovZ" ∧
    (lookupKey (venue_search_params venue size) "keyword").isSome =
      !strStartsWith venue "KovZ" ∧
    (lookupKey (venue_search_params "KovZ917M" 5) "venueId").isSome = true ∧
    (lookupKey (venue_search_params "KovZ917M" 5) "keyword").isSome = false ∧
    (lookupKey (venue_search_params "Madison Square Garden" 5) "keyword").isSome
      = true ∧
    (lookupKey (venue_search_params "Madison Square Garden" 5) "venueId").isSome
      = false := by
  refine ⟨?_, ?_, by decide, by decide, by decide, by decide⟩
  · cases hv : strStartsWith venue "KovZ" with
    | true => simp [venue_search_params, removeNoneParams, lookupKey, hv]
    | false => simp [venue_search_params, removeNoneParams, lookupKey, hv]
  · cases hv : strStartsWith venue "KovZ" with
    | true => simp [venue_search_params, removeNoneParams, lookupKey, hv]
    | false => simp [venue_search_params, removeNoneParams, lookupKey, hv]

/-- C7: a successful payload with zero events makes the artist entry point
return the "no upcoming events" message, which references the queried
artist and does not start with the "Error:" prefix. -/
theorem c7_no_events_message (artist : String) (kvs : List (String × Json))
    (herr : lookupKey kvs "error" = none)
    (hex : extract_events (Json.obj kvs) = .ok (.arr [])) :
    search_artist_result artist (Json.obj kvs) =
      .ok ("No upcoming events found for artist: " ++ artist) ∧
    (∃ p q, "No upcoming events found for artist: " ++ artist =
       p ++ artist ++ q) ∧
    ¬∃ r, "No upcoming events found for artist: " ++ artist = "Error:" ++ r := by
  refine ⟨search_artist_result_of_empty artist kvs herr hex,
    ⟨"No upcoming events found for artist: ", "",
      by rw [String.append_empty]⟩, ?_⟩
  rintro ⟨r, hr⟩
  have hd := congrArg String.data hr
  rw [String.data_append, String.data_append] at hd
  have e1 : "No upcoming events found for artist: ".data =
      'N' :: "o upcoming events found for artist: ".data := rfl
  have e2 : "Error:".data = 'E' :: "rror:".data := rfl
  rw [e1, e2] at hd
  simp only [List.cons_append, List.cons.injEq] at hd
  exact absurd hd.1 (by decide)

/-- Witness for C7 at the spec's example query "Radiohead" and the empty
payload. -/
theorem c7_witness :
    search_artist_result "Radiohead" (Json.obj []) =
      .ok ("No upcoming events found for artist: " ++ "Radiohead") ∧
    (∃ p q, "No upcoming events found for artist: " ++ "Radiohead" =
       p ++ "Radiohead" ++ q) ∧
    ¬∃ r, "No upcoming events found for artist: " ++ "Radiohead" =
       "Error:" ++ r :=
  c7_no_events_message "Radiohead" [] rfl rfl

/-- C8 as stated is false: formatting runs outside the Gateway's
try/except, so a payload whose event has a non-object under `dates` makes
`format_event` — and hence the artist entry point — raise an uncaught
`TypeError` instead of returning a string. -/
theorem c8_counterexample :
    format_event (Json.obj [("dates", .num 5)]) = .error "TypeError" ∧
    search_artist_result "X"
      (Json.obj [("_embedded", .obj
        [("events", .arr [.obj [("dates", .num 5)]])])]) =
      .error "TypeError" :=
  ⟨rfl, rfl⟩

/-- C8, amended: every Gateway-level failure is caught and surfaces as an
"Error: "-prefixed string, and the entry point returns a string on every
payload whose fields have the expected shapes; only payloads with
unexpected nested shapes can raise. -/
theorem c8_amended_error_handling :
    (∀ (artist : String) (o : HttpOutcome), gatewayFailed o = true →
       ∃ r, search_events_by_artist artist o = .ok ("Error: " ++ r)) ∧
    (∀ (artist : String) (data : Json), wfPayload data = true →
       ∃ s, search_artist_result artist data = .ok s) := by
  constructor
  · intro artist o ho
    cases o with
    | success b => simp [gatewayFailed] at ho
    | statusError code =>
      simp only [search_events_by_artist, make_ticketmaster_request]
      by_cases h429 : code = 429
      · subst h429
        exact ⟨"Rate limit exceeded. Please try again later.", by rfl⟩
      · rw [if_neg h429]
        by_cases h401 : code = 401
        · subst h401
          exact ⟨"Unauthorized. Please check your API key.", by rfl⟩
        · rw [if_neg h401]
          exact ⟨"HTTP error: " ++ toString code, by rfl⟩
    | requestError =>
      exact ⟨"Failed to connect to Ticketmaster API.", by rfl⟩
    | unexpected msg =>
      exact ⟨"An unexpected error occurred: " ++ msg, by rfl⟩
  · intro artist data h
    exact search_artist_result_total artist data h

/-- Witness for the amended C8 at a 429 outcome and at the empty payload. -/
theorem c8_witness :
    (∃ r, search_events_by_artist "X" (.statusError 429) = .ok ("Error: " ++ r)) ∧
    (∃ s, search_artist_result "X" (Json.obj []) = .ok s) :=
  ⟨c8_amended_error_handling.1 "X" (.statusError 429) rfl,
   c8_amended_error_handling.2 "X" (Json.obj []) rfl⟩

/-- C9: an event whose venues list sits only under the top-level
`_embedded` envelope (and which has no `embedded` key) gets no venue line;
a non-empty venue line can only arise from the
`event["embedded"]["_embedded"]["venues"]` path the code actually reads. -/
theorem c9_venue_line_path :
    (∀ (kvs : List (String × Json)) (v : Json),
       lookupKey kvs "_embedded" = some v →
       lookupKey kvs "embedded" = none →
       venue_info (Json.obj kvs) = .ok "") ∧
    (∀ (e : Json) (s : String), venue_info e = .ok s → s ≠ "" →
       (embeddedVenuesPath e).isSome = true) :=
  ⟨fun kvs _v _h1 h2 => venue_info_of_no_embedded kvs h2,
   fun e s h hs => venue_info_needs_path e s h hs⟩

/-- Witness for C9: the Ticketmaster-style envelope record gets no venue
line, and a record with the code's `embedded._embedded.venues` path has
that path present when a venue line is produced. -/
theorem c9_witness :
    venue_info (Json.obj [("_embedded", .obj
      [("venues", .arr [.obj [("name", .str "MSG")]])])]) = .ok "" ∧
    (embeddedVenuesPath (Json.obj [("embedded", .obj [("_embedded", .obj
      [("venues", .arr [.obj []])])])])).isSome = true :=
  ⟨c9_venue_line_path.1 [("_embedded", .obj
      [("venues", .arr [.obj [("name", .str "MSG")]])])] _ rfl rfl,
   c9_venue_line_path.2 (Json.obj [("embedded", .obj [("_embedded", .obj
      [("venues", .arr [.obj []])])])]) "Venue: Unknown Venue, \n" rfl
      (by decide)⟩

/-- C10: after `make_ticketmaster_request` runs, the caller's `params`
mapping holds `apikey` bound to the configured key and every other entry
is unchanged (the in-place `params["apikey"] = ...` mutation, modelled by
the updated mapping `requestParamsAfter`). -/
theorem c10_params_mutation (apikey : String) (params : List (String × Json)) :
    lookupKey (requestParamsAfter apikey params) "apikey" = some (.str apikey) ∧
    ∀ k, k ≠ "apikey" →
      lookupKey (requestParamsAfter apikey params) k = lookupKey params k :=
  ⟨lookupKey_pySetItem_self params "apikey" (.str apikey),
   fun k hk => lookupKey_pySetItem_other params "apikey" (.str apikey) k hk⟩

/-- Witness for C10 on the artist search parameters. -/
theorem c10_witness :
    lookupKey (requestParamsAfter "KEY" [("keyword", .str "Adele")]) "apikey" =
      some (.str "KEY") ∧
    lookupKey (requestParamsAfter "KEY" [("keyword", .str "Adele")]) "keyword" =
      some (.str "Adele") := by
  refine ⟨(c10_params_mutation "KEY" [("keyword", .str "Adele")]).1, ?_⟩
  rw [(c10_params_mutation "KEY" [("keyword", .str "Adele")]).2 "keyword"
    (by decide)]
  rfl
